import Mathlib

/-!
# nerdctl `info` command and the capability test table

A shallow embedding of `src/info.go` (`infoAction`, `getSnapshotterNames`)
and of the expected values of `TestRunCap` in `src/run_security_test.go`.

* Go `error` values are `GoError`; a `nil` error is `none`.
* A Go call returning `(value, err)` from an external package is an
  `Except GoError value`.
* The output writer and the sequence of calls made to the daemon are kept
  in an explicit `World` that every effectful function threads through.
* `uint64` masks are natural numbers below `2 ^ 64`.
-/

namespace Nerdctl

/-! ## Data model -/

/-- A Go `error` value (only its identity matters here). -/
structure GoError where
  msg : String
  deriving DecidableEq, Repr

/-- The `introspection.Plugin` record: only the fields read by `info.go`
(`Type_` is the Go field `Type`).
`InitErr` is a pointer to a status, `none` standing for `nil`. -/
structure Plugin where
  Type_ : String
  ID : String
  InitErr : Option GoError
  deriving DecidableEq, Repr

/-- The `introspection.PluginsResponse` message. -/
structure PluginsResponse where
  Plugins : List Plugin
  deriving DecidableEq, Repr

/-- The `introspection.ServerResponse` message. -/
structure ServerResponse where
  UUID : String
  deriving DecidableEq, Repr

/-- The `containerd.Version` struct. -/
structure DaemonVersion where
  Version : String
  Revision : String
  deriving DecidableEq, Repr

/-- The `introspection.Service` interface: the two daemon probes.
`Plugins` takes the list of filters (`nil` is `[]`). -/
structure IntrospectionService where
  Plugins : List String → Except GoError PluginsResponse
  Server : Except GoError ServerResponse

/-- The containerd client returned by `newClient`. -/
structure Client where
  Version : Except GoError DaemonVersion
  IntrospectionService : IntrospectionService

/-- The `cgroups.CGMode` enumeration. -/
inductive CGMode where
  | Unavailable
  | Legacy
  | Hybrid
  | Unified
  deriving DecidableEq, Repr

/-- The `cli.Context`: flag lookup by name (`clicontext.String(name)`,
`clicontext.Bool(name)`). -/
structure Context where
  StringFlag : String → String
  BoolFlag : String → Bool

/-- The external packages `infoAction` calls besides the daemon:
`newClient`, `defaults`, `cgroups`, `pkgapparmor`, `rootlessutil`,
`infoutil`. -/
structure Host where
  newClient : Context → Except GoError Client
  CgroupManager : String
  Mode : CGMode
  HostSupports : Bool
  CgroupnsMode : String
  IsRootlessChild : Bool
  DistroName : String
  UnameR : String

/-- A call that leaves the process. -/
inductive Call where
  | newClient
  | version
  | server
  | plugins
  | cancel
  deriving DecidableEq, Repr

/-- The observable state: the writes made to `clicontext.App.Writer`, one
entry per `fmt.Fprintf`, and the calls issued, both oldest first. -/
structure World where
  out : List String
  calls : List Call
  deriving DecidableEq, Repr

/-- One `fmt.Fprintf(w, ...)` whose formatted text is `s`. -/
def fprintf (w : World) (s : String) : World :=
  { w with out := w.out ++ [s] }

/-- Record that call `c` has been issued. -/
def issue (w : World) (c : Call) : World :=
  { w with calls := w.calls ++ [c] }

/-- Go `strings.HasPrefix(s, p)`. Go compares bytes; on well-formed UTF-8
text a prefix of bytes that is itself well-formed, such as the ASCII
constant used in `info.go`, is a prefix of characters and conversely. -/
def HasPrefix (s p : String) : Bool :=
  p.toList.isPrefixOf s.toList

/-- Go `strings.Join(elems, sep)`. -/
def Join (elems : List String) (sep : String) : String :=
  sep.intercalate elems

/-! ## `info.go` -/

/-- The body of the `for _, p := range plugins.Plugins` loop of
`getSnapshotterNames`. -/
def snapshotterStep (names : List String) (p : Plugin) : List String :=
  if HasPrefix p.Type_ "io.containerd.snapshotter." && p.InitErr == none then
    names ++ [p.ID]
  else
    names

/-- The function `getSnapshotterNames` of `info.go`: returns the Go pair
`(names, err)` and the world after the `Plugins` call. -/
def getSnapshotterNames (introService : IntrospectionService) (w : World) :
    (List String × Option GoError) × World :=
  let names : List String := []
  let w := issue w Call.plugins
  match introService.Plugins [] with
  | Except.error err => (([], some err), w)
  | Except.ok plugins => ((plugins.Plugins.foldl snapshotterStep names, none), w)

/-- The part of `infoAction` that runs after `newClient` has succeeded and
`defer cancel()` has been registered: everything from `client.Version(ctx)`
to the final `return nil`. -/
def infoActionWithClient (host : Host) (clicontext : Context) (client : Client)
    (w : World) : Option GoError × World :=
  let w := issue w Call.version
  match client.Version with
  | Except.error err => (some err, w)
  | Except.ok daemonVersion =>
    let introService := client.IntrospectionService
    let w := issue w Call.server
    match introService.Server with
    | Except.error err => (some err, w)
    | Except.ok daemonIntro =>
      match getSnapshotterNames introService w with
      | ((_, some err), w) => (some err, w)
      | ((snapshotterPlugins, none), w) =>
        let w := fprintf w "\n"
        let w := fprintf w "Server:\n"
        let w := fprintf w (" Server Version: " ++ daemonVersion.Version ++ "\n")
        let w := fprintf w (" Storage Driver: " ++ clicontext.StringFlag "snapshotter" ++ "\n")
        let w := fprintf w " Logging Driver: json-file\n"
        let w := fprintf w (" Cgroup Driver: " ++ host.CgroupManager ++ "\n")
        let cgVersion : Nat := 1
        let cgVersion := if host.Mode = CGMode.Unified then 2 else cgVersion
        let w := fprintf w (" Cgroup Version: " ++ toString cgVersion ++ "\n")
        let w := fprintf w " Plugins:\n"
        let w := fprintf w ("  Storage: " ++ Join snapshotterPlugins " " ++ "\n")
        let w := fprintf w " Security Options:\n"
        let w := if host.HostSupports then fprintf w "  apparmor\n" else w
        let w := fprintf w "  seccomp\n"
        let w := fprintf w "   Profile: default\n"
        let w := if host.CgroupnsMode = "private" then fprintf w "  cgroupns\n" else w
        let w := if host.IsRootlessChild then fprintf w "  rootless\n" else w
        let w := fprintf w (" Operating System: " ++ host.DistroName ++ "\n")
        let w := fprintf w (" Kernel Version: " ++ host.UnameR ++ "\n")
        let w := fprintf w (" ID: " ++ daemonIntro.UUID ++ "\n")
        (none, w)

/-- The function `infoAction` of `info.go`: the returned error (`none` for
`nil`) and the world after the run. The deferred `cancel()` runs when the
function returns, on every path after `newClient` succeeded. -/
def infoAction (host : Host) (clicontext : Context) (w : World) :
    Option GoError × World :=
  let w := fprintf w "Client:\n"
  let w := fprintf w (" Namespace:\t" ++ clicontext.StringFlag "namespace" ++ "\n")
  let w := fprintf w (" Debug Mode:\t" ++ toString (clicontext.BoolFlag "debug") ++ "\n")
  let w := issue w Call.newClient
  match host.newClient clicontext with
  | Except.error err => (some err, w)
  | Except.ok client =>
    match infoActionWithClient host clicontext client w with
    | (err, w) => (err, issue w Call.cancel)

/-! ## `run_security_test.go` -/

/-- The constant `CAP_NET_RAW` of the test file. -/
def CAP_NET_RAW : Nat := 13

/-- The local type `testCase` of `TestRunCap`. -/
structure TestCase where
  args : List String
  capEff : Nat
  deriving DecidableEq, Repr

/-- The table `testCases` of `TestRunCap`, as a function of the `allCaps`
bitmap read from PID 1. The operands are `uint64` values; exclusive or and
a shift of `1` by 13 cannot leave the 64-bit range. -/
def testCases (allCaps : Nat) : List TestCase :=
  [ { args := [], capEff := 0xa80425fb },
    { args := ["--cap-add=all"], capEff := allCaps },
    { args := ["--cap-add=all", "--cap-drop=net_raw"],
      capEff := allCaps ^^^ (1 <<< CAP_NET_RAW) },
    { args := ["--cap-drop=all", "--cap-add=net_raw"],
      capEff := 1 <<< CAP_NET_RAW } ]

/-- The expected `capEff` of the test case whose arguments are `args`
(`0` when the table has no such case). -/
def expectedCapEff (allCaps : Nat) (args : List String) : Nat :=
  match (testCases allCaps).find? (fun tc => tc.args == args) with
  | some tc => tc.capEff
  | none => 0

/-! ## Capability Set Resolver

The resolver that `TestRunCap` exercises through the command line is not
part of the two source files; it is modelled from section 4.1 of the
specification. -/

/-- Modelled from the spec: the action of a `CapDirective` (section 3). -/
inductive CapAction where
  | Add
  | Drop
  deriving DecidableEq, Repr

/-- Modelled from the spec: the target of a `CapDirective`, a capability
name or the wildcard `ALL` (section 3). -/
inductive CapTarget where
  | ALL
  | Named (name : String)
  deriving DecidableEq, Repr

/-- Modelled from the spec: `CapDirective`, the ordered pair
(action, target) of section 3. -/
structure CapDirective where
  action : CapAction
  target : CapTarget
  deriving DecidableEq, Repr

/-- Modelled from the spec: the error kind `UnknownCapability(name)` of the
resolver (sections 4.1 and 7). -/
inductive ResolveError where
  | UnknownCapability (name : String)
  deriving DecidableEq, Repr

/-- Go `x &^ y` on `uint64`: `x` and the 64-bit complement of `y`. -/
def andNot64 (x y : Nat) : Nat :=
  x &&& (y ^^^ (2 ^ 64 - 1))

/-- Modelled from the spec: one step of the resolver of section 4.1, the
effect of a single directive on `result`. The Capability Table, which the
spec leaves to the target system, is the parameter `bit`, mapping a known
name to its bit position. -/
def resolveStep (bit : String → Option Nat) (allCaps : Nat)
    (result : Nat) (d : CapDirective) : Except ResolveError Nat :=
  match d.action, d.target with
  | CapAction.Add, CapTarget.ALL => Except.ok (result ||| allCaps)
  | CapAction.Add, CapTarget.Named name =>
    match bit name with
    | some b => Except.ok (result ||| (1 <<< b))
    | none => Except.error (ResolveError.UnknownCapability name)
  | CapAction.Drop, CapTarget.ALL => Except.ok (result &&& 0)
  | CapAction.Drop, CapTarget.Named name =>
    match bit name with
    | some b => Except.ok (andNot64 result (1 <<< b))
    | none => Except.error (ResolveError.UnknownCapability name)

/-- Modelled from the spec: the Capability Set Resolver
`Resolve(base, directives, allCaps)` of section 4.1, which the source files
do not contain: `result := base`, then the directives are applied strictly
left to right, the first unknown name failing the call. -/
def Resolve (bit : String → Option Nat) (base : Nat)
    (directives : List CapDirective) (allCaps : Nat) : Except ResolveError Nat :=
  match directives with
  | [] => Except.ok base
  | d :: rest =>
    match resolveStep bit allCaps base d with
    | Except.error e => Except.error e
    | Except.ok result => Resolve bit result rest allCaps

/-! ## Concrete inputs -/

/-- A one-entry Capability Table knowing only `net_raw`. -/
def netRawTable (name : String) : Option Nat :=
  if name = "net_raw" then some CAP_NET_RAW else none

/-- The directive `--cap-add=all`. -/
def addAll : CapDirective := { action := CapAction.Add, target := CapTarget.ALL }

/-- The directive `--cap-drop=all`. -/
def dropAll : CapDirective := { action := CapAction.Drop, target := CapTarget.ALL }

/-- The directive `--cap-add=net_raw`. -/
def addNetRaw : CapDirective :=
  { action := CapAction.Add, target := CapTarget.Named "net_raw" }

/-- The directive `--cap-drop=net_raw`. -/
def dropNetRaw : CapDirective :=
  { action := CapAction.Drop, target := CapTarget.Named "net_raw" }

/-- Three plugins: a healthy snapshotter, a snapshotter that failed to
initialise, and a healthy plugin of an unrelated type. -/
def scenarioPlugins : List Plugin :=
  [ { Type_ := "io.containerd.snapshotter.v1", ID := "overlayfs", InitErr := none },
    { Type_ := "io.containerd.snapshotter.v1", ID := "zfs",
      InitErr := some { msg := "skip plugin" } },
    { Type_ := "io.containerd.grpc.v1", ID := "images", InitErr := none } ]

/-- An introspection service whose probes succeed and report `plugins`. -/
def serviceOf (plugins : List Plugin) : IntrospectionService :=
  { Plugins := fun _ => Except.ok { Plugins := plugins },
    Server := Except.ok { UUID := "a1b2" } }

/-- An introspection service whose `Plugins` probe fails with `e`. -/
def serviceFailing (e : GoError) : IntrospectionService :=
  { Plugins := fun _ => Except.error e,
    Server := Except.ok { UUID := "a1b2" } }

/-- A client whose version probe succeeds. -/
def clientOf (svc : IntrospectionService) : Client :=
  { Version := Except.ok { Version := "v1.4.3", Revision := "r0" },
    IntrospectionService := svc }

/-- A client whose version probe fails with `e`. -/
def clientVersionFailing (e : GoError) : Client :=
  { Version := Except.error e,
    IntrospectionService := serviceOf scenarioPlugins }

/-- A host on which `newClient` returns `client`. -/
def hostOf (client : Client) (apparmor : Bool) (cgroupns : String)
    (rootless : Bool) : Host :=
  { newClient := fun _ => Except.ok client,
    CgroupManager := "cgroupfs",
    Mode := CGMode.Unified,
    HostSupports := apparmor,
    CgroupnsMode := cgroupns,
    IsRootlessChild := rootless,
    DistroName := "Alpine Linux v3.13",
    UnameR := "5.8.0" }

/-- A command-line context with the default flags, the snapshotter flag
being `snapshotter`. -/
def contextOf (snapshotter : String) : Context :=
  { StringFlag := fun name =>
      if name = "namespace" then "default"
      else if name = "snapshotter" then snapshotter
      else "",
    BoolFlag := fun _ => false }

/-- The world before the command runs: nothing written, nothing called. -/
def World.empty : World := { out := [], calls := [] }


/-! ## Specification-side definitions -/

/-- A plugin is a healthy snapshotter when its `Type` starts with
`io.containerd.snapshotter.` and its `InitErr` is `nil`. -/
def isHealthySnapshotter (p : Plugin) : Prop :=
  HasPrefix p.Type_ "io.containerd.snapshotter." = true ∧ p.InitErr = none

instance (p : Plugin) : Decidable (isHealthySnapshotter p) := by
  unfold isHealthySnapshotter
  infer_instance

/-- The writes made between world `w` and the later world `w'`. -/
def written (w w' : World) : List String :=
  w'.out.drop w.out.length

/-- The calls issued between world `w` and the later world `w'`. -/
def callsIssued (w w' : World) : List Call :=
  w'.calls.drop w.calls.length

/-- The three writes of the `Client:` section. -/
def clientSection (clicontext : Context) : List String :=
  [ "Client:\n",
    " Namespace:\t" ++ clicontext.StringFlag "namespace" ++ "\n",
    " Debug Mode:\t" ++ toString (clicontext.BoolFlag "debug") ++ "\n" ]

/-- The security options as the claim lists them: apparmor, seccomp with
its profile line, cgroupns, rootless, in this order; seccomp always, each of
the others when its host check holds. -/
def securityOptionsSpec (apparmor cgroupnsPrivate rootless : Bool) : List String :=
  (if apparmor then ["  apparmor\n"] else []) ++
  ["  seccomp\n", "   Profile: default\n"] ++
  (if cgroupnsPrivate then ["  cgroupns\n"] else []) ++
  (if rootless then ["  rootless\n"] else [])

/-- The writes of the `Server:` section that precede the security options. -/
def serverHead (host : Host) (clicontext : Context) (daemonVersion : DaemonVersion)
    (names : List String) : List String :=
  [ "\n",
    "Server:\n",
    " Server Version: " ++ daemonVersion.Version ++ "\n",
    " Storage Driver: " ++ clicontext.StringFlag "snapshotter" ++ "\n",
    " Logging Driver: json-file\n",
    " Cgroup Driver: " ++ host.CgroupManager ++ "\n",
    " Cgroup Version: " ++ (if host.Mode = CGMode.Unified then "2" else "1") ++ "\n",
    " Plugins:\n",
    "  Storage: " ++ Join names " " ++ "\n" ]

/-- The three writes that follow the security options. -/
def serverTail (host : Host) (daemonIntro : ServerResponse) : List String :=
  [ " Operating System: " ++ host.DistroName ++ "\n",
    " Kernel Version: " ++ host.UnameR ++ "\n",
    " ID: " ++ daemonIntro.UUID ++ "\n" ]

/-- The names `getSnapshotterNames` returns on a successful probe. -/
def healthySnapshotterIDs (plugins : List Plugin) : List String :=
  (plugins.filter (fun p => decide (isHealthySnapshotter p))).map Plugin.ID

/-- Two plugins carrying the same ID: a healthy `v1` snapshotter and a
snapshotter of another API version that failed to initialise. -/
def sharedIdPlugins : List Plugin :=
  [ { Type_ := "io.containerd.snapshotter.v1", ID := "overlayfs", InitErr := none },
    { Type_ := "io.containerd.snapshotter.v2", ID := "overlayfs",
      InitErr := some { msg := "skip plugin" } } ]

/-- The labels of the `StatusReport` fields as `infoAction` prints them. -/
def reportFieldLabels : List String :=
  [ " Server Version:", "  Storage:", " Security Options:", " Operating System:",
    " Kernel Version:", " ID:" ]

/-- Whether the write `s` starts with the label of a `StatusReport` field. -/
def writesReportField (s : String) : Bool :=
  reportFieldLabels.any (fun l => HasPrefix s l)

/-- The fixed order in which `infoAction` checks and prints the security
options. -/
def securityOptionOrder : List String :=
  [ "  apparmor\n", "  seccomp\n", "   Profile: default\n", "  cgroupns\n", "  rootless\n" ]

/-! ## Lemmas on the loop of `getSnapshotterNames` -/

theorem snapshotterStep_healthy (names : List String) (p : Plugin)
    (h : isHealthySnapshotter p) : snapshotterStep names p = names ++ [p.ID] := by
  obtain ⟨h1, h2⟩ := h
  simp [snapshotterStep, h1, h2]

theorem snapshotterStep_other (names : List String) (p : Plugin)
    (h : ¬ isHealthySnapshotter p) : snapshotterStep names p = names := by
  unfold snapshotterStep
  split
  · rename_i hc
    exfalso
    apply h
    simp only [Bool.and_eq_true, beq_iff_eq] at hc
    exact hc
  · rfl

theorem foldl_snapshotterStep (plugins : List Plugin) (names : List String) :
    plugins.foldl snapshotterStep names =
      names ++ (plugins.filter (fun p => decide (isHealthySnapshotter p))).map Plugin.ID := by
  induction plugins generalizing names with
  | nil => simp
  | cons p ps ih =>
    rw [List.foldl_cons, ih]
    by_cases h : isHealthySnapshotter p
    · rw [snapshotterStep_healthy names p h]
      simp [List.filter_cons, h]
    · rw [snapshotterStep_other names p h]
      simp [List.filter_cons, h]

theorem getSnapshotterNames_ok (introService : IntrospectionService) (w : World)
    (r : PluginsResponse) (h : introService.Plugins [] = Except.ok r) :
    getSnapshotterNames introService w =
      (((r.Plugins.filter (fun p => decide (isHealthySnapshotter p))).map Plugin.ID, none),
        issue w Call.plugins) := by
  simp [getSnapshotterNames, h, foldl_snapshotterStep]

theorem getSnapshotterNames_error (introService : IntrospectionService) (w : World)
    (e : GoError) (h : introService.Plugins [] = Except.error e) :
    getSnapshotterNames introService w = (([], some e), issue w Call.plugins) := by
  simp [getSnapshotterNames, h]

theorem infoAction_success (host : Host) (clicontext : Context) (w : World)
    (client : Client) (daemonVersion : DaemonVersion) (daemonIntro : ServerResponse)
    (r : PluginsResponse)
    (hclient : host.newClient clicontext = Except.ok client)
    (hversion : client.Version = Except.ok daemonVersion)
    (hserver : client.IntrospectionService.Server = Except.ok daemonIntro)
    (hplugins : client.IntrospectionService.Plugins [] = Except.ok r) :
    infoAction host clicontext w =
      (none,
        { out := w.out ++ (clientSection clicontext ++
            (serverHead host clicontext daemonVersion (healthySnapshotterIDs r.Plugins) ++
              (" Security Options:\n" ::
                (securityOptionsSpec host.HostSupports
                    (decide (host.CgroupnsMode = "private")) host.IsRootlessChild ++
                  serverTail host daemonIntro)))),
          calls := w.calls ++
            [Call.newClient, Call.version, Call.server, Call.plugins, Call.cancel] }) := by
  simp only [infoAction, infoActionWithClient, hclient, hversion, hserver,
    getSnapshotterNames_ok _ _ r hplugins]
  cases hA : host.HostSupports <;> cases hR : host.IsRootlessChild <;>
    by_cases hC : host.CgroupnsMode = "private" <;>
    by_cases hM : host.Mode = CGMode.Unified <;>
    simp [fprintf, issue, clientSection, serverHead, serverTail, securityOptionsSpec,
      healthySnapshotterIDs, hC, hM] <;> decide

/-! ## The plugin aggregator -/

/-- C1: when the `Plugins` probe succeeds with a plugin list,
`getSnapshotterNames` returns, with a nil error, exactly the IDs of the
plugins whose `Type` starts with `io.containerd.snapshotter.` and whose
`InitErr` is nil, in input order: the result is `map ID (filter ...)` of the
list, neither re-sorted nor de-duplicated. -/
theorem getSnapshotterNames_eq_map_filter (introService : IntrospectionService)
    (w : World) (r : PluginsResponse)
    (h : introService.Plugins [] = Except.ok r) :
    (getSnapshotterNames introService w).1 =
      ((r.Plugins.filter (fun p =>
          HasPrefix p.Type_ "io.containerd.snapshotter." && decide (p.InitErr = none))).map
        Plugin.ID, none) := by
  rw [getSnapshotterNames_ok introService w r h]
  simp [isHealthySnapshotter]

theorem getSnapshotterNames_eq_map_filter_witness :
    (serviceOf sharedIdPlugins).Plugins [] = Except.ok { Plugins := sharedIdPlugins } ∧
    (getSnapshotterNames (serviceOf sharedIdPlugins) World.empty).1 =
      ((sharedIdPlugins.filter (fun p =>
          HasPrefix p.Type_ "io.containerd.snapshotter." && decide (p.InitErr = none))).map
        Plugin.ID, none) :=
  ⟨rfl, getSnapshotterNames_eq_map_filter (serviceOf sharedIdPlugins) World.empty
    { Plugins := sharedIdPlugins } rfl⟩

/-- C2, as stated, fails: in `sharedIdPlugins` the second plugin failed to
initialise, yet its ID `overlayfs` is an element of the result, because the
healthy first plugin carries the same ID. -/
theorem failed_plugin_id_in_result :
    ¬ ∀ (introService : IntrospectionService) (w : World) (r : PluginsResponse)
        (p : Plugin), introService.Plugins [] = Except.ok r → p ∈ r.Plugins →
        p.InitErr ≠ none → p.ID ∉ (getSnapshotterNames introService w).1.1 := by
  intro h
  have h1 := h (serviceOf sharedIdPlugins) World.empty { Plugins := sharedIdPlugins }
    { Type_ := "io.containerd.snapshotter.v2", ID := "overlayfs",
      InitErr := some { msg := "skip plugin" } } rfl (by decide) (by decide)
  exact h1 (by decide)

/-- C2, amended: a plugin that failed to initialise (`InitErr` non-nil)
contributes no entry to the result of `getSnapshotterNames`, whatever its
`Type`: the result has one entry per healthy snapshotter plugin, and the ID
of the failed plugin is an element of the result only when a different
plugin of the list, whose `Type` has the snapshotter prefix and whose
`InitErr` is nil, carries the same ID. For the three-entry scenario the
result is exactly the ID of the healthy snapshotter. -/
theorem failed_plugin_contributes_nothing (introService : IntrospectionService)
    (w : World) (r : PluginsResponse) (p : Plugin)
    (hprobe : introService.Plugins [] = Except.ok r)
    (hfail : p.InitErr ≠ none) :
    ((getSnapshotterNames introService w).1.1.length =
        (r.Plugins.filter (fun q => decide (isHealthySnapshotter q))).length) ∧
    (p.ID ∈ (getSnapshotterNames introService w).1.1 →
      ∃ q ∈ r.Plugins, q ≠ p ∧ q.ID = p.ID ∧
        HasPrefix q.Type_ "io.containerd.snapshotter." = true ∧ q.InitErr = none) ∧
    (getSnapshotterNames (serviceOf scenarioPlugins) w).1 = (["overlayfs"], none) := by
  rw [getSnapshotterNames_ok introService w r hprobe]
  refine ⟨by simp, ?_, ?_⟩
  · intro hmem
    simp only [List.mem_map, List.mem_filter, decide_eq_true_eq] at hmem
    obtain ⟨q, ⟨hq, hh⟩, hid⟩ := hmem
    refine ⟨q, hq, ?_, hid, hh.1, hh.2⟩
    intro hqp
    apply hfail
    rw [← hqp]
    exact hh.2
  · rw [getSnapshotterNames_ok (serviceOf scenarioPlugins) w { Plugins := scenarioPlugins } rfl]
    show ((scenarioPlugins.filter (fun p => decide (isHealthySnapshotter p))).map Plugin.ID,
      (none : Option GoError)) = (["overlayfs"], none)
    decide

theorem failed_plugin_contributes_nothing_witness :
    (serviceOf scenarioPlugins).Plugins [] = Except.ok { Plugins := scenarioPlugins } ∧
    (some ({ msg := "skip plugin" } : GoError)) ≠ none ∧
    "zfs" ∉ (getSnapshotterNames (serviceOf scenarioPlugins) World.empty).1.1 :=
  ⟨rfl, by decide, fun hmem => by
    have h := (failed_plugin_contributes_nothing (serviceOf scenarioPlugins) World.empty
      { Plugins := scenarioPlugins }
      { Type_ := "io.containerd.snapshotter.v1", ID := "zfs",
        InitErr := some { msg := "skip plugin" } } rfl (by decide)).2.1 hmem
    revert h
    decide⟩

/-- C3: `getSnapshotterNames` returns a non-nil error exactly when the
`Plugins` probe fails; it then returns that error and no names. When the
probe succeeds the error is nil, and when no plugin of the list is a healthy
snapshotter (an empty list included) the result is the empty sequence with a
nil error. -/
theorem getSnapshotterNames_error_iff (introService : IntrospectionService) (w : World) :
    ((getSnapshotterNames introService w).1.2 ≠ none ↔
      ∃ e, introService.Plugins [] = Except.error e) ∧
    (∀ e, introService.Plugins [] = Except.error e →
      (getSnapshotterNames introService w).1 = ([], some e)) ∧
    (∀ r, introService.Plugins [] = Except.ok r →
      (getSnapshotterNames introService w).1.2 = none ∧
      ((∀ p ∈ r.Plugins, ¬ (HasPrefix p.Type_ "io.containerd.snapshotter." = true ∧
          p.InitErr = none)) →
        (getSnapshotterNames introService w).1 = ([], none))) := by
  refine ⟨?_, ?_, ?_⟩
  · cases h : introService.Plugins [] with
    | error e => simp [getSnapshotterNames_error introService w e h]
    | ok r => simp [getSnapshotterNames_ok introService w r h]
  · intro e h
    rw [getSnapshotterNames_error introService w e h]
  · intro r h
    rw [getSnapshotterNames_ok introService w r h]
    refine ⟨rfl, ?_⟩
    intro hnone
    have hfilter : r.Plugins.filter (fun p => decide (isHealthySnapshotter p)) = [] := by
      rw [List.filter_eq_nil_iff]
      intro p hp
      simpa [isHealthySnapshotter] using hnone p hp
    simp [hfilter]

theorem getSnapshotterNames_error_iff_witness :
    (getSnapshotterNames (serviceFailing { msg := "unavailable" }) World.empty).1 =
        ([], some { msg := "unavailable" }) ∧
    (getSnapshotterNames (serviceOf []) World.empty).1 = ([], none) :=
  ⟨(getSnapshotterNames_error_iff (serviceFailing { msg := "unavailable" }) World.empty).2.1
      { msg := "unavailable" } rfl,
    ((getSnapshotterNames_error_iff (serviceOf []) World.empty).2.2
      { Plugins := [] } rfl).2 (by simp)⟩

/-! ## Failure paths of `infoAction` -/

theorem written_append (w : World) (l : List String) (c : List Call) :
    written w { out := w.out ++ l, calls := c } = l := by
  simp [written]

theorem callsIssued_append (w : World) (o : List String) (l : List Call) :
    callsIssued w { out := o, calls := w.calls ++ l } = l := by
  simp [callsIssued]

theorem infoAction_version_error (host : Host) (clicontext : Context) (w : World)
    (client : Client) (e : GoError)
    (hclient : host.newClient clicontext = Except.ok client)
    (hversion : client.Version = Except.error e) :
    infoAction host clicontext w =
      (some e,
        { out := w.out ++ clientSection clicontext,
          calls := w.calls ++ [Call.newClient, Call.version, Call.cancel] }) := by
  simp [infoAction, infoActionWithClient, hclient, hversion, fprintf, issue, clientSection]

theorem infoAction_plugins_error (host : Host) (clicontext : Context) (w : World)
    (client : Client) (daemonVersion : DaemonVersion) (daemonIntro : ServerResponse)
    (e : GoError)
    (hclient : host.newClient clicontext = Except.ok client)
    (hversion : client.Version = Except.ok daemonVersion)
    (hserver : client.IntrospectionService.Server = Except.ok daemonIntro)
    (hplugins : client.IntrospectionService.Plugins [] = Except.error e) :
    infoAction host clicontext w =
      (some e,
        { out := w.out ++ clientSection clicontext,
          calls := w.calls ++
            [Call.newClient, Call.version, Call.server, Call.plugins, Call.cancel] }) := by
  simp [infoAction, infoActionWithClient, hclient, hversion, hserver,
    getSnapshotterNames_error _ _ e hplugins, fprintf, issue, clientSection]

theorem clientSection_no_report_field (clicontext : Context) :
    ∀ s ∈ clientSection clicontext, writesReportField s = false := by
  intro s hs
  simp only [clientSection, List.mem_cons, List.mem_singleton, List.not_mem_nil, or_false] at hs
  rcases hs with h | h | h <;> subst h <;>
    simp [writesReportField, reportFieldLabels, HasPrefix, String.toList, List.isPrefixOf]

theorem securityOptionsSpec_sublist (a c r : Bool) :
    List.Sublist (securityOptionsSpec a c r) securityOptionOrder := by
  cases a <;> cases c <;> cases r <;> decide

theorem securityOptionsSpec_mem (a c r : Bool) :
    ("  apparmor\n" ∈ securityOptionsSpec a c r ↔ a = true) ∧
    "  seccomp\n" ∈ securityOptionsSpec a c r ∧
    "   Profile: default\n" ∈ securityOptionsSpec a c r ∧
    ("  cgroupns\n" ∈ securityOptionsSpec a c r ↔ c = true) ∧
    ("  rootless\n" ∈ securityOptionsSpec a c r ↔ r = true) := by
  cases a <;> cases c <;> cases r <;> decide

/-- C4: when the plugin-list probe errors after `newClient`, the version
probe and the server probe have succeeded, `infoAction` returns that error
and has written the `Client:` section only: no write starts with the label
of a report field (Server Version, Storage, Security Options, Operating
System, Kernel Version, ID). -/
theorem infoAction_plugins_error_no_report (host : Host) (clicontext : Context)
    (w : World) (client : Client) (daemonVersion : DaemonVersion)
    (daemonIntro : ServerResponse) (e : GoError)
    (hclient : host.newClient clicontext = Except.ok client)
    (hversion : client.Version = Except.ok daemonVersion)
    (hserver : client.IntrospectionService.Server = Except.ok daemonIntro)
    (hplugins : client.IntrospectionService.Plugins [] = Except.error e) :
    (infoAction host clicontext w).1 = some e ∧
    written w (infoAction host clicontext w).2 = clientSection clicontext ∧
    (∀ s ∈ written w (infoAction host clicontext w).2, writesReportField s = false) ∧
    callsIssued w (infoAction host clicontext w).2 =
      [Call.newClient, Call.version, Call.server, Call.plugins, Call.cancel] := by
  rw [infoAction_plugins_error host clicontext w client daemonVersion daemonIntro e
    hclient hversion hserver hplugins]
  refine ⟨rfl, written_append _ _ _, ?_, callsIssued_append _ _ _⟩
  rw [written_append]
  exact clientSection_no_report_field clicontext

theorem infoAction_plugins_error_no_report_witness :
    (hostOf (clientOf (serviceFailing { msg := "unavailable" })) true "private" false).newClient
        (contextOf "overlayfs") =
      Except.ok (clientOf (serviceFailing { msg := "unavailable" })) ∧
    (clientOf (serviceFailing { msg := "unavailable" })).Version =
      Except.ok { Version := "v1.4.3", Revision := "r0" } ∧
    (clientOf (serviceFailing { msg := "unavailable" })).IntrospectionService.Server =
      Except.ok { UUID := "a1b2" } ∧
    (clientOf (serviceFailing { msg := "unavailable" })).IntrospectionService.Plugins [] =
      Except.error { msg := "unavailable" } ∧
    (infoAction (hostOf (clientOf (serviceFailing { msg := "unavailable" })) true "private" false)
        (contextOf "overlayfs") World.empty).1 = some { msg := "unavailable" } :=
  ⟨rfl, rfl, rfl, rfl,
    (infoAction_plugins_error_no_report
      (hostOf (clientOf (serviceFailing { msg := "unavailable" })) true "private" false)
      (contextOf "overlayfs") World.empty (clientOf (serviceFailing { msg := "unavailable" }))
      { Version := "v1.4.3", Revision := "r0" } { UUID := "a1b2" } { msg := "unavailable" }
      rfl rfl rfl rfl).1⟩

/-- C5: when `newClient` has succeeded and the daemon version probe fails,
`infoAction` returns that error at once: the calls issued are `newClient`,
the version probe once, and the deferred `cancel`; neither the server probe
nor the plugin-list probe is issued, and only the `Client:` section has been
written, so no `Server:` section. -/
theorem infoAction_version_error_fails_fast (host : Host) (clicontext : Context)
    (w : World) (client : Client) (e : GoError)
    (hclient : host.newClient clicontext = Except.ok client)
    (hversion : client.Version = Except.error e) :
    (infoAction host clicontext w).1 = some e ∧
    callsIssued w (infoAction host clicontext w).2 =
      [Call.newClient, Call.version, Call.cancel] ∧
    (callsIssued w (infoAction host clicontext w).2).count Call.version = 1 ∧
    Call.server ∉ callsIssued w (infoAction host clicontext w).2 ∧
    Call.plugins ∉ callsIssued w (infoAction host clicontext w).2 ∧
    written w (infoAction host clicontext w).2 = clientSection clicontext ∧
    "Server:\n" ∉ written w (infoAction host clicontext w).2 := by
  rw [infoAction_version_error host clicontext w client e hclient hversion]
  refine ⟨rfl, callsIssued_append _ _ _, ?_, ?_, ?_, written_append _ _ _, ?_⟩
  · rw [callsIssued_append]
    decide
  · rw [callsIssued_append]
    decide
  · rw [callsIssued_append]
    decide
  · rw [written_append]
    simp [clientSection, String.ext_iff]

theorem infoAction_version_error_fails_fast_witness :
    (hostOf (clientVersionFailing { msg := "timeout" }) false "host" true).newClient
        (contextOf "native") = Except.ok (clientVersionFailing { msg := "timeout" }) ∧
    (clientVersionFailing { msg := "timeout" }).Version = Except.error { msg := "timeout" } ∧
    (infoAction (hostOf (clientVersionFailing { msg := "timeout" }) false "host" true)
        (contextOf "native") World.empty).1 = some { msg := "timeout" } :=
  ⟨rfl, rfl,
    (infoAction_version_error_fails_fast
      (hostOf (clientVersionFailing { msg := "timeout" }) false "host" true)
      (contextOf "native") World.empty (clientVersionFailing { msg := "timeout" })
      { msg := "timeout" } rfl rfl).1⟩

/-! ## The success path of `infoAction` -/

/-- C7: the security checks are advisory. Whatever the three host checks
say, once the probes have succeeded `infoAction` returns nil; after the
header ` Security Options:` it writes the options in the fixed order
apparmor, seccomp, `Profile: default`, cgroupns, rootless, then the three
closing fields; seccomp and its profile line are always written and each of
apparmor, cgroupns, rootless is written exactly when its host check holds. -/
theorem infoAction_security_options_advisory (host : Host) (clicontext : Context)
    (w : World) (client : Client) (daemonVersion : DaemonVersion)
    (daemonIntro : ServerResponse) (r : PluginsResponse)
    (hclient : host.newClient clicontext = Except.ok client)
    (hversion : client.Version = Except.ok daemonVersion)
    (hserver : client.IntrospectionService.Server = Except.ok daemonIntro)
    (hplugins : client.IntrospectionService.Plugins [] = Except.ok r) :
    (infoAction host clicontext w).1 = none ∧
    (∃ opts : List String,
      (written w (infoAction host clicontext w).2).drop 12 =
        " Security Options:\n" :: (opts ++ serverTail host daemonIntro) ∧
      opts = securityOptionsSpec host.HostSupports
        (decide (host.CgroupnsMode = "private")) host.IsRootlessChild ∧
      List.Sublist opts securityOptionOrder ∧
      ("  apparmor\n" ∈ opts ↔ host.HostSupports = true) ∧
      "  seccomp\n" ∈ opts ∧
      "   Profile: default\n" ∈ opts ∧
      ("  cgroupns\n" ∈ opts ↔ host.CgroupnsMode = "private") ∧
      ("  rootless\n" ∈ opts ↔ host.IsRootlessChild = true)) := by
  rw [infoAction_success host clicontext w client daemonVersion daemonIntro r
    hclient hversion hserver hplugins]
  refine ⟨rfl, _, ?_, rfl, securityOptionsSpec_sublist _ _ _, ?_⟩
  · rw [written_append]
    simp [clientSection, serverHead]
  · simpa using securityOptionsSpec_mem host.HostSupports
      (decide (host.CgroupnsMode = "private")) host.IsRootlessChild

theorem infoAction_security_options_advisory_witness :
    (hostOf (clientOf (serviceOf scenarioPlugins)) false "host" true).newClient
        (contextOf "overlayfs") = Except.ok (clientOf (serviceOf scenarioPlugins)) ∧
    (clientOf (serviceOf scenarioPlugins)).Version =
      Except.ok { Version := "v1.4.3", Revision := "r0" } ∧
    (clientOf (serviceOf scenarioPlugins)).IntrospectionService.Server =
      Except.ok { UUID := "a1b2" } ∧
    (clientOf (serviceOf scenarioPlugins)).IntrospectionService.Plugins [] =
      Except.ok { Plugins := scenarioPlugins } ∧
    (infoAction (hostOf (clientOf (serviceOf scenarioPlugins)) false "host" true)
        (contextOf "overlayfs") World.empty).1 = none :=
  ⟨rfl, rfl, rfl, rfl,
    (infoAction_security_options_advisory
      (hostOf (clientOf (serviceOf scenarioPlugins)) false "host" true)
      (contextOf "overlayfs") World.empty (clientOf (serviceOf scenarioPlugins))
      { Version := "v1.4.3", Revision := "r0" } { UUID := "a1b2" }
      { Plugins := scenarioPlugins } rfl rfl rfl rfl).1⟩

/-- C8: when all probes succeed, `infoAction` returns nil and the write that
follows ` Plugins:` is the `Storage:` line, `"  Storage: "` followed by the
names returned by `getSnapshotterNames` joined by single spaces, in that
order, and a newline. When no plugin is a healthy snapshotter the line has
nothing after the label. -/
theorem infoAction_storage_line (host : Host) (clicontext : Context)
    (w : World) (client : Client) (daemonVersion : DaemonVersion)
    (daemonIntro : ServerResponse) (r : PluginsResponse)
    (hclient : host.newClient clicontext = Except.ok client)
    (hversion : client.Version = Except.ok daemonVersion)
    (hserver : client.IntrospectionService.Server = Except.ok daemonIntro)
    (hplugins : client.IntrospectionService.Plugins [] = Except.ok r) :
    (infoAction host clicontext w).1 = none ∧
    (written w (infoAction host clicontext w).2)[10]? = some " Plugins:\n" ∧
    (written w (infoAction host clicontext w).2)[11]? =
      some ("  Storage: " ++
        " ".intercalate (getSnapshotterNames client.IntrospectionService w).1.1 ++ "\n") ∧
    ((∀ p ∈ r.Plugins, ¬ (HasPrefix p.Type_ "io.containerd.snapshotter." = true ∧
        p.InitErr = none)) →
      (written w (infoAction host clicontext w).2)[11]? = some "  Storage: \n") := by
  rw [infoAction_success host clicontext w client daemonVersion daemonIntro r
    hclient hversion hserver hplugins,
    getSnapshotterNames_ok client.IntrospectionService w r hplugins, written_append]
  refine ⟨rfl, ?_, ?_, ?_⟩
  · simp [clientSection, serverHead]
  · simp [clientSection, serverHead, healthySnapshotterIDs, Join]
  · intro hnone
    have hfilter : healthySnapshotterIDs r.Plugins = [] := by
      unfold healthySnapshotterIDs
      rw [List.map_eq_nil_iff, List.filter_eq_nil_iff]
      intro p hp
      simpa [isHealthySnapshotter] using hnone p hp
    rw [hfilter]
    simp [clientSection, serverHead, Join]
    decide

theorem infoAction_storage_line_witness :
    (hostOf (clientOf (serviceOf sharedIdPlugins)) true "private" false).newClient
        (contextOf "overlayfs") = Except.ok (clientOf (serviceOf sharedIdPlugins)) ∧
    (clientOf (serviceOf sharedIdPlugins)).Version =
      Except.ok { Version := "v1.4.3", Revision := "r0" } ∧
    (clientOf (serviceOf sharedIdPlugins)).IntrospectionService.Server =
      Except.ok { UUID := "a1b2" } ∧
    (clientOf (serviceOf sharedIdPlugins)).IntrospectionService.Plugins [] =
      Except.ok { Plugins := sharedIdPlugins } ∧
    (written World.empty
        (infoAction (hostOf (clientOf (serviceOf sharedIdPlugins)) true "private" false)
          (contextOf "overlayfs") World.empty).2)[10]? = some " Plugins:\n" :=
  ⟨rfl, rfl, rfl, rfl,
    (infoAction_storage_line
      (hostOf (clientOf (serviceOf sharedIdPlugins)) true "private" false)
      (contextOf "overlayfs") World.empty (clientOf (serviceOf sharedIdPlugins))
      { Version := "v1.4.3", Revision := "r0" } { UUID := "a1b2" }
      { Plugins := sharedIdPlugins } rfl rfl rfl rfl).2.1⟩

/-- C10: on every successful run the `Storage Driver:` line is the
`snapshotter` flag of the command line, verbatim. Two successful runs with
the same command line, whatever plugins (and other daemon answers) they
see, write the same line; and for some input the line names a snapshotter
that is not in the `Storage:` list of healthy snapshotter plugins. -/
theorem infoAction_storage_driver_from_flag (hostA hostB : Host) (clicontext : Context)
    (wA wB : World) (clientA clientB : Client) (versionA versionB : DaemonVersion)
    (introA introB : ServerResponse) (rA rB : PluginsResponse)
    (hclientA : hostA.newClient clicontext = Except.ok clientA)
    (hversionA : clientA.Version = Except.ok versionA)
    (hserverA : clientA.IntrospectionService.Server = Except.ok introA)
    (hpluginsA : clientA.IntrospectionService.Plugins [] = Except.ok rA)
    (hclientB : hostB.newClient clicontext = Except.ok clientB)
    (hversionB : clientB.Version = Except.ok versionB)
    (hserverB : clientB.IntrospectionService.Server = Except.ok introB)
    (hpluginsB : clientB.IntrospectionService.Plugins [] = Except.ok rB) :
    (written wA (infoAction hostA clicontext wA).2)[6]? =
      some (" Storage Driver: " ++ clicontext.StringFlag "snapshotter" ++ "\n") ∧
    (written wA (infoAction hostA clicontext wA).2)[6]? =
      (written wB (infoAction hostB clicontext wB).2)[6]? ∧
    (∃ (host : Host) (ctx : Context) (name : String),
      (infoAction host ctx World.empty).1 = none ∧
      (written World.empty (infoAction host ctx World.empty).2)[6]? =
        some (" Storage Driver: " ++ name ++ "\n") ∧
      (written World.empty (infoAction host ctx World.empty).2)[11]? =
        some "  Storage: overlayfs\n" ∧
      name ∉ ["overlayfs"]) := by
  rw [infoAction_success hostA clicontext wA clientA versionA introA rA
      hclientA hversionA hserverA hpluginsA,
    infoAction_success hostB clicontext wB clientB versionB introB rB
      hclientB hversionB hserverB hpluginsB, written_append, written_append]
  refine ⟨?_, ?_, ?_⟩
  · simp [clientSection, serverHead]
  · simp [clientSection, serverHead]
  · refine ⟨hostOf (clientOf (serviceOf scenarioPlugins)) true "private" false,
      contextOf "zfs", "zfs", ?_, ?_, ?_, ?_⟩ <;> decide

theorem infoAction_storage_driver_from_flag_witness :
    (hostOf (clientOf (serviceOf scenarioPlugins)) true "private" false).newClient
        (contextOf "zfs") = Except.ok (clientOf (serviceOf scenarioPlugins)) ∧
    (clientOf (serviceOf scenarioPlugins)).IntrospectionService.Plugins [] =
      Except.ok { Plugins := scenarioPlugins } ∧
    (hostOf (clientOf (serviceOf [])) false "host" false).newClient
        (contextOf "zfs") = Except.ok (clientOf (serviceOf [])) ∧
    (clientOf (serviceOf [])).IntrospectionService.Plugins [] =
      Except.ok { Plugins := [] } ∧
    (written World.empty
        (infoAction (hostOf (clientOf (serviceOf scenarioPlugins)) true "private" false)
          (contextOf "zfs") World.empty).2)[6]? =
      (written World.empty
        (infoAction (hostOf (clientOf (serviceOf [])) false "host" false)
          (contextOf "zfs") World.empty).2)[6]? :=
  ⟨rfl, rfl, rfl, rfl,
    (infoAction_storage_driver_from_flag
      (hostOf (clientOf (serviceOf scenarioPlugins)) true "private" false)
      (hostOf (clientOf (serviceOf [])) false "host" false)
      (contextOf "zfs") World.empty World.empty
      (clientOf (serviceOf scenarioPlugins)) (clientOf (serviceOf []))
      { Version := "v1.4.3", Revision := "r0" } { Version := "v1.4.3", Revision := "r0" }
      { UUID := "a1b2" } { UUID := "a1b2" }
      { Plugins := scenarioPlugins } { Plugins := [] }
      rfl rfl rfl rfl rfl rfl rfl rfl).2.1⟩

/-! ## The capability test table and the resolver -/

theorem or_eq_of_subset (base allCaps : Nat) (h : base &&& allCaps = base) :
    base ||| allCaps = allCaps := by
  apply Nat.eq_of_testBit_eq
  intro i
  have hi : (base &&& allCaps).testBit i = base.testBit i := by rw [h]
  rw [Nat.testBit_and] at hi
  rw [Nat.testBit_or]
  cases hb : base.testBit i <;> cases ha : allCaps.testBit i <;> simp_all

theorem andNot64_bit (x b : Nat) (hx : x < 2 ^ 64) (i : Nat) :
    (andNot64 x (1 <<< b)).testBit i = (x.testBit i && decide (i ≠ b)) := by
  unfold andNot64
  rw [Nat.testBit_and, Nat.testBit_xor, Nat.testBit_two_pow_sub_one, Nat.one_shiftLeft,
    Nat.testBit_two_pow]
  by_cases hi : i < 64
  · by_cases hb : b = i
    · subst hb
      simp [hi]
    · have hb2 : i ≠ b := fun h => hb h.symm
      simp [hi, hb, hb2]
  · have hx2 : x.testBit i = false := by
      apply Nat.testBit_lt_two_pow
      calc x < 2 ^ 64 := hx
        _ ≤ 2 ^ i := Nat.pow_le_pow_right (by decide) (by omega)
    simp [hx2]

theorem andNot64_eq_xor (x b : Nat) (hx : x < 2 ^ 64) (hb : x.testBit b = true) :
    andNot64 x (1 <<< b) = x ^^^ (1 <<< b) := by
  apply Nat.eq_of_testBit_eq
  intro i
  rw [andNot64_bit x b hx, Nat.testBit_xor, Nat.one_shiftLeft, Nat.testBit_two_pow]
  by_cases h : b = i
  · subst h
    simp [hb]
  · have h2 : i ≠ b := fun e => h e.symm
    simp [h, h2]

theorem expectedCapEff_addAll_dropNetRaw (allCaps : Nat) :
    expectedCapEff allCaps ["--cap-add=all", "--cap-drop=net_raw"] =
      allCaps ^^^ (1 <<< CAP_NET_RAW) := by
  simp [expectedCapEff, testCases]

theorem expectedCapEff_dropAll_addNetRaw (allCaps : Nat) :
    expectedCapEff allCaps ["--cap-drop=all", "--cap-add=net_raw"] = 1 <<< CAP_NET_RAW := by
  simp [expectedCapEff, testCases]

theorem Resolve_dropAll_addNetRaw (bit : String → Option Nat) (base allCaps : Nat)
    (hbit : bit "net_raw" = some CAP_NET_RAW) :
    Resolve bit base [dropAll, addNetRaw] allCaps = Except.ok (1 <<< CAP_NET_RAW) := by
  simp [Resolve, resolveStep, dropAll, addNetRaw, hbit]

theorem Resolve_addNetRaw_dropAll (bit : String → Option Nat) (base allCaps : Nat)
    (hbit : bit "net_raw" = some CAP_NET_RAW) :
    Resolve bit base [addNetRaw, dropAll] allCaps = Except.ok 0 := by
  simp [Resolve, resolveStep, dropAll, addNetRaw, hbit]

theorem Resolve_addAll_dropNetRaw (bit : String → Option Nat) (base allCaps : Nat)
    (hbit : bit "net_raw" = some CAP_NET_RAW) :
    Resolve bit base [addAll, dropNetRaw] allCaps =
      Except.ok (andNot64 (base ||| allCaps) (1 <<< CAP_NET_RAW)) := by
  simp [Resolve, resolveStep, addAll, dropNetRaw, hbit]

/-- C6, as stated, fails: with the default mask `0xa80425fb` as base and an
`allCaps` that lacks net_raw, `[add=all, drop=net_raw]` resolves to
`0xa80405fb`, whereas the expression of the test, `allCaps ^ (1 << 13)`,
is `0xa80425fb`, net_raw set. -/
theorem Resolve_addAll_dropNetRaw_not_xor :
    ¬ ∀ (base allCaps : Nat), base < 2 ^ 64 → allCaps < 2 ^ 64 →
        Resolve netRawTable base [addAll, dropNetRaw] allCaps =
          Except.ok (allCaps ^^^ (1 <<< CAP_NET_RAW)) := by
  intro h
  have h1 := h 0xa80425fb 0xa80405fb (by decide) (by decide)
  rw [Resolve_addAll_dropNetRaw netRawTable _ _ rfl] at h1
  simp only [Except.ok.injEq] at h1
  revert h1
  decide

/-- C6, amended: for every base mask and every `allCaps`, the directives
`[drop=all, add=net_raw]` resolve to exactly the single bit `1 << 13`, the
value the test expects, while the reverse order gives `0`; the directives
`[add=all, drop=net_raw]` resolve to `base | allCaps` with the net_raw bit
cleared, which is every capability of `allCaps` except net_raw when base is
contained in `allCaps`, and is the value the test expects,
`allCaps ^ (1 << CAP_NET_RAW)`, when moreover net_raw is set in `allCaps`. -/
theorem Resolve_order_sensitive (bit : String → Option Nat) (base allCaps : Nat)
    (hbit : bit "net_raw" = some CAP_NET_RAW)
    (hall : allCaps < 2 ^ 64) :
    Resolve bit base [dropAll, addNetRaw] allCaps =
      Except.ok (expectedCapEff allCaps ["--cap-drop=all", "--cap-add=net_raw"]) ∧
    expectedCapEff allCaps ["--cap-drop=all", "--cap-add=net_raw"] = 1 <<< 13 ∧
    Resolve bit base [addNetRaw, dropAll] allCaps = Except.ok 0 ∧
    Resolve bit base [addAll, dropNetRaw] allCaps =
      Except.ok (andNot64 (base ||| allCaps) (1 <<< CAP_NET_RAW)) ∧
    (base &&& allCaps = base →
      Resolve bit base [addAll, dropNetRaw] allCaps =
        Except.ok (andNot64 allCaps (1 <<< CAP_NET_RAW)) ∧
      ∀ i, (andNot64 allCaps (1 <<< CAP_NET_RAW)).testBit i =
        (allCaps.testBit i && decide (i ≠ CAP_NET_RAW))) ∧
    (base &&& allCaps = base → allCaps.testBit CAP_NET_RAW = true →
      Resolve bit base [addAll, dropNetRaw] allCaps =
        Except.ok (expectedCapEff allCaps ["--cap-add=all", "--cap-drop=net_raw"])) := by
  refine ⟨?_, ?_, Resolve_addNetRaw_dropAll bit base allCaps hbit,
    Resolve_addAll_dropNetRaw bit base allCaps hbit, ?_, ?_⟩
  · rw [expectedCapEff_dropAll_addNetRaw]
    exact Resolve_dropAll_addNetRaw bit base allCaps hbit
  · rw [expectedCapEff_dropAll_addNetRaw]
    rfl
  · intro hsub
    rw [Resolve_addAll_dropNetRaw bit base allCaps hbit, or_eq_of_subset base allCaps hsub]
    exact ⟨rfl, andNot64_bit allCaps CAP_NET_RAW hall⟩
  · intro hsub hset
    rw [Resolve_addAll_dropNetRaw bit base allCaps hbit, or_eq_of_subset base allCaps hsub,
      andNot64_eq_xor allCaps CAP_NET_RAW hall hset, expectedCapEff_addAll_dropNetRaw]

theorem Resolve_order_sensitive_witness :
    netRawTable "net_raw" = some CAP_NET_RAW ∧
    0x3fffffffff < 2 ^ 64 ∧
    0xa80425fb &&& 0x3fffffffff = 0xa80425fb ∧
    Nat.testBit 0x3fffffffff CAP_NET_RAW = true ∧
    Resolve netRawTable 0xa80425fb [addAll, dropNetRaw] 0x3fffffffff =
      Except.ok (expectedCapEff 0x3fffffffff ["--cap-add=all", "--cap-drop=net_raw"]) :=
  ⟨rfl, by decide, by decide, by decide,
    (Resolve_order_sensitive netRawTable 0xa80425fb 0x3fffffffff rfl (by decide)).2.2.2.2.2
      (by decide) (by decide)⟩

/-- C9, as stated, fails: for `allCaps = 0xa80425fb` the value the test
computes, `allCaps ^ (1 << CAP_NET_RAW)`, is not `0xa80421fb`. -/
theorem expectedCapEff_not_0xa80421fb :
    expectedCapEff 0xa80425fb ["--cap-add=all", "--cap-drop=net_raw"] ≠ 0xa80421fb := by
  rw [expectedCapEff_addAll_dropNetRaw]
  decide

/-- C9, amended: for `allCaps = 0xa80425fb` and `CAP_NET_RAW = 13` the
expected mask of the case `--cap-add=all --cap-drop=net_raw`, computed as
the test does by `allCaps ^ (1 << CAP_NET_RAW)`, is `0xa80405fb`; net_raw is
set in `allCaps`, so this exclusive or equals `allCaps` with the net_raw bit
cleared. -/
theorem expectedCapEff_scenario :
    CAP_NET_RAW = 13 ∧
    expectedCapEff 0xa80425fb ["--cap-add=all", "--cap-drop=net_raw"] = 0xa80405fb ∧
    Nat.testBit 0xa80425fb CAP_NET_RAW = true ∧
    0xa80425fb ^^^ (1 <<< CAP_NET_RAW) = andNot64 0xa80425fb (1 <<< CAP_NET_RAW) := by
  refine ⟨rfl, ?_, by decide, by decide⟩
  rw [expectedCapEff_addAll_dropNetRaw]
  decide

end Nerdctl
